import Mathlib

set_option maxHeartbeats 1000000

namespace VirtioBalloon

/-! Shallow embedding of the virtio-balloon device back-end
(src/virtio-devices/src/balloon.rs of cuhk-mass/cloud-hypervisor).

Machine integers are modelled as Nat with explicit reductions modulo
2 to the relevant power where the source truncates.  Host syscalls
(madvise, fallocate) are modelled as a trace of emitted operations;
the syscalls themselves are assumed to succeed, so the FallocateFail
and MadviseFail error paths are not exercised by the model.  Guest
memory reads are an oracle function from address to an optional value
(None models a GuestMemoryError). -/

/-- const QUEUE_SIZE: u16 = 128 -/
def QUEUE_SIZE : Nat := 128

/-- const STATS_QUEUE_SIZE: u16 = 32 -/
def STATS_QUEUE_SIZE : Nat := 32

/-- const REPORTING_QUEUE_SIZE: u16 = 32 -/
def REPORTING_QUEUE_SIZE : Nat := 32

/-- const VIRTIO_BALLOON_PFN_SHIFT: u64 = 12 -/
def VIRTIO_BALLOON_PFN_SHIFT : Nat := 12

/-- const VIRTIO_BALLOON_F_STATS_VQ: u64 = 1 -/
def VIRTIO_BALLOON_F_STATS_VQ : Nat := 1

/-- const VIRTIO_BALLOON_F_DEFLATE_ON_OOM: u64 = 2 -/
def VIRTIO_BALLOON_F_DEFLATE_ON_OOM : Nat := 2

/-- const VIRTIO_BALLOON_F_REPORTING: u64 = 5 -/
def VIRTIO_BALLOON_F_REPORTING : Nat := 5

/-- const VIRTIO_BALLOON_F_HETERO_MEM: u64 = 6 -/
def VIRTIO_BALLOON_F_HETERO_MEM : Nat := 6

/-- VIRTIO_F_VERSION_1 comes from the crate root (not under src/); the
standard virtio 1.0 feature bit position is 32. -/
def VIRTIO_F_VERSION_1 : Nat := 32

/-- enum BalloonVq.  The source spells the unsupported free-page role
with a leading underscore; Lean forbids that, so it is FreePage here. -/
inductive BalloonVq
  | Inflate
  | Deflate
  | Stats
  | FreePage
  | Reporting
  | HeteroInflate
  | HeteroDeflate
deriving DecidableEq, Repr

/-- enum Error of balloon.rs.  Payloads that are io errors or guest
memory errors are dropped; numeric payloads are kept. -/
inductive Error
  | GuestMemory
  | UnexpectedWriteOnlyDescriptor
  | InvalidRequest
  | FallocateFail
  | MadviseFail
  | EventFdWriteFail
  | InvalidQueueIndex (idx : Nat)
  | FailedSignal
  | DescriptorChainTooShort
  | QueueAddUsed
  | QueueIterator
  | UnexpectedStatTag (tag : Nat)
  | MemoryStatistic
deriving DecidableEq, Repr

/-- madvise advice values used by the handler. -/
inductive Advice
  | DONTNEED
  | WILLNEED
deriving DecidableEq, Repr

/-- A host memory operation emitted by the handler.  fallocate carries
the byte offset into the backing file and the length; it always stands
for FALLOC_FL_PUNCH_HOLE combined with FALLOC_FL_KEEP_SIZE, the only
mode the source uses.  madvise carries the guest base address of the
range (the source passes the corresponding host virtual address). -/
inductive MemOp
  | fallocate (fileOffset : Nat) (len : Nat)
  | madvise (base : Nat) (len : Nat) (advice : Advice)
deriving DecidableEq, Repr

/-- A guest memory region as seen through vm-memory: start address,
size, and, when file-backed, the starting offset of the region in its
backing file (file_offset().start()). -/
structure MemRegion where
  start : Nat
  size : Nat
  fileOffsetStart : Option Nat
deriving DecidableEq, Repr

/-- Guest memory: the region list plus read oracles.  readU32 models
read_obj::<u32> (little-endian u32 at an address), readStat models
read_obj::<BalloonStat> giving the (tag, val) pair of the 10-byte
packed record.  None models a GuestMemoryError. -/
structure GuestMem where
  regions : List MemRegion
  readU32 : Nat → Option Nat
  readStat : Nat → Option (Nat × Nat)

/-- GuestMemoryMmap::find_region: the region containing the address. -/
def findRegion (mem : GuestMem) (addr : Nat) : Option MemRegion :=
  mem.regions.find? (fun r => decide (r.start ≤ addr ∧ addr < r.start + r.size))

/-- vm_allocator::page_size::align_page_size_down.  The source masks
with the complement of (page_size - 1) for a power-of-two page size,
which agrees with rounding down to a multiple of the page size. -/
def alignPageDown (pageSize : Nat) (addr : Nat) : Nat :=
  addr / pageSize * pageSize

/-- BalloonEpollHandler::advise_memory_range.  get_host_address fails
(GuestMemory) when no region contains the base; otherwise one madvise
with the given advice is emitted. -/
def advise_memory_range (mem : GuestMem) (base len : Nat) (advice : Advice) :
    Except Error (List MemOp) :=
  match findRegion mem base with
  | none => .error .GuestMemory
  | some _ => .ok [.madvise base len advice]

/-- BalloonEpollHandler::release_memory_range.  find_region fails with
GuestMemory when no region contains the base; a file-backed region
first gets a hole-punching fallocate at (base - region.start) +
file_offset.start; then the range is advised DONTNEED. -/
def release_memory_range (mem : GuestMem) (base len : Nat) :
    Except Error (List MemOp) :=
  match findRegion mem base with
  | none => .error .GuestMemory
  | some region =>
    let fileOps : List MemOp :=
      match region.fileOffsetStart with
      | some fs => [.fallocate (base - region.start + fs) len]
      | none => []
    match advise_memory_range mem base len .DONTNEED with
    | .error e => .error e
    | .ok ops => .ok (fileOps ++ ops)

/-- A virtio descriptor: guest address, length (u32) and the
write-only flag. -/
structure Descriptor where
  addr : Nat
  len : Nat
  write_only : Bool
deriving DecidableEq, Repr

/-- A popped descriptor chain: the head index used for add_used, and
the descriptors yielded in order by DescriptorChain::next. -/
structure DescChain where
  head_index : Nat
  descs : List Descriptor
deriving DecidableEq, Repr

/-- Length of the head descriptor (0 for an empty chain, which the
drain rejects as DescriptorChainTooShort before using this value). -/
def DescChain.headLen (c : DescChain) : Nat :=
  match c.descs with
  | [] => 0
  | d :: _ => d.len

/-- Total readable byte-length of a chain: the sum of the lengths of
its host-readable (non write-only) descriptors.  This is the quantity
the spec text refers to; it is not a function the source computes. -/
def DescChain.totalReadableLen (c : DescChain) : Nat :=
  ((c.descs.filter (fun d => !d.write_only)).map Descriptor.len).sum

/-- One used-ring entry: add_used(head_index, len). -/
structure UsedEntry where
  id : Nat
  len : Nat
deriving DecidableEq, Repr

/-- One virtqueue: the available chains still to pop, and the used
entries posted so far. -/
structure QueueState where
  avail : List DescChain
  used : List UsedEntry
deriving DecidableEq, Repr

/-- struct BalloonCounters: sixteen atomic u64 cells, modelled as
plain Nat fields (the device has a single worker thread; stores use
relaxed ordering). -/
structure BalloonCounters where
  swap_in : Nat
  swap_out : Nat
  major_faults : Nat
  minor_faults : Nat
  free_memory : Nat
  total_memory : Nat
  available_memory : Nat
  disk_caches : Nat
  hugetlb_allocations : Nat
  hugetlb_failures : Nat
  dram_accesses : Nat
  dram_free : Nat
  dram_total : Nat
  pmem_accesses : Nat
  pmem_free : Nat
  pmem_total : Nat
deriving DecidableEq, Repr

/-- Default::default() for BalloonCounters: all cells zero. -/
def BalloonCounters.zero : BalloonCounters :=
  ⟨0, 0, 0, 0, 0, 0, 0, 0, 0, 0, 0, 0, 0, 0, 0, 0⟩

/-- BalloonCounters::get, reading the cell selected by the tag. -/
def BalloonCounters.get (c : BalloonCounters) (tag : Nat) : Except Error Nat :=
  match tag with
  | 0 => .ok c.swap_in
  | 1 => .ok c.swap_out
  | 2 => .ok c.major_faults
  | 3 => .ok c.minor_faults
  | 4 => .ok c.free_memory
  | 5 => .ok c.total_memory
  | 6 => .ok c.available_memory
  | 7 => .ok c.disk_caches
  | 8 => .ok c.hugetlb_allocations
  | 9 => .ok c.hugetlb_failures
  | 10 => .ok c.dram_accesses
  | 11 => .ok c.dram_free
  | 12 => .ok c.dram_total
  | 13 => .ok c.pmem_accesses
  | 14 => .ok c.pmem_free
  | 15 => .ok c.pmem_total
  | _ => .error (.UnexpectedStatTag tag)

/-- self.counters.get(tag)?.store(val, Relaxed): selecting the cell
with BalloonCounters::get and writing it. -/
def BalloonCounters.store (c : BalloonCounters) (tag val : Nat) :
    Except Error BalloonCounters :=
  match tag with
  | 0 => .ok { c with swap_in := val }
  | 1 => .ok { c with swap_out := val }
  | 2 => .ok { c with major_faults := val }
  | 3 => .ok { c with minor_faults := val }
  | 4 => .ok { c with free_memory := val }
  | 5 => .ok { c with total_memory := val }
  | 6 => .ok { c with available_memory := val }
  | 7 => .ok { c with disk_caches := val }
  | 8 => .ok { c with hugetlb_allocations := val }
  | 9 => .ok { c with hugetlb_failures := val }
  | 10 => .ok { c with dram_accesses := val }
  | 11 => .ok { c with dram_free := val }
  | 12 => .ok { c with dram_total := val }
  | 13 => .ok { c with pmem_accesses := val }
  | 14 => .ok { c with pmem_free := val }
  | 15 => .ok { c with pmem_total := val }
  | _ => .error (.UnexpectedStatTag tag)

/-- BalloonCounters::name. -/
def BalloonCounters.name (tag : Nat) : Except Error String :=
  match tag with
  | 0 => .ok "swap_in"
  | 1 => .ok "swap_out"
  | 2 => .ok "major_faults"
  | 3 => .ok "minor_faults"
  | 4 => .ok "free_memory"
  | 5 => .ok "total_memory"
  | 6 => .ok "available_memory"
  | 7 => .ok "disk_caches"
  | 8 => .ok "hugetlb_allocations"
  | 9 => .ok "hugetlb_failures"
  | 10 => .ok "dram_accesses"
  | 11 => .ok "dram_free"
  | 12 => .ok "dram_total"
  | 13 => .ok "pmem_accesses"
  | 14 => .ok "pmem_free"
  | 15 => .ok "pmem_total"
  | _ => .error (.UnexpectedStatTag tag)

/-- The mutable state of BalloonEpollHandler that the queue handlers
touch, together with the observable effect traces: the interrupts
raised via signal (queue indices, in order) and the memory operations
emitted (memOps, in order).  queues is total over indices; the
handlers only ever touch the index queue_indices maps the role to.
statsTimerPresent models stats_timer_evt.is_some(); timerArmed is the
interval the timer was last reset to (None if never armed). -/
structure HandlerState where
  mem : GuestMem
  pageSize : Nat
  queues : Nat → QueueState
  queueIndices : BalloonVq → Nat
  statsQueueIndex : Option Nat
  statsTimerPresent : Bool
  statsPollingInterval : Option Nat
  timerArmed : Option Nat
  counters : BalloonCounters
  interrupts : List Nat
  memOps : List MemOp

/-- The queue at a given index of the queue vector. -/
def HandlerState.queueAt (h : HandlerState) (i : Nat) : QueueState :=
  h.queues i

/-- Outcome of draining one queue: the chains left unpopped, the used
entries added (in order), the memory operations emitted (in order)
and the overall result. -/
structure DrainResult where
  remaining : List DescChain
  usedAdded : List UsedEntry
  ops : List MemOp
  result : Except Error Unit

/-- The inner while loop of process_queue: walk count 32-bit PFNs
starting at addr, emitting release (inflate roles) or WILLNEED advice
(deflate roles) for the page-aligned range of each.  Returns the
operations emitted before any error together with the result. -/
def pfnLoop (vq : BalloonVq) (queue_index pageSize : Nat) (mem : GuestMem) :
    Nat → Nat → List MemOp × Except Error Unit
  | _, 0 => ([], .ok ())
  | addr, n + 1 =>
    match mem.readU32 addr with
    | none => ([], .error .GuestMemory)
    | some v =>
      let pfn := v % 2 ^ 32
      let rbase := alignPageDown pageSize (pfn * 2 ^ VIRTIO_BALLOON_PFN_SHIFT)
      let step : Except Error (List MemOp) :=
        match vq with
        | .Inflate | .HeteroInflate => release_memory_range mem rbase pageSize
        | .Deflate | .HeteroDeflate =>
          advise_memory_range mem rbase pageSize .WILLNEED
        | _ => .error (.InvalidQueueIndex queue_index)
      match step with
      | .error e => ([], .error e)
      | .ok ops =>
        let rest := pfnLoop vq queue_index pageSize mem (addr + 4) n
        (ops ++ rest.1, rest.2)

/-- The body of process_queue for one popped chain: take the head
descriptor (DescriptorChainTooShort if none), reject a write-only
head, reject a length that is not a multiple of 4, then run the PFN
loop; on success the used entry is (head_index, head length). -/
def processChainPQ (vq : BalloonVq) (queue_index pageSize : Nat)
    (mem : GuestMem) (c : DescChain) : List MemOp × Except Error UsedEntry :=
  match c.descs with
  | [] => ([], .error .DescriptorChainTooShort)
  | desc :: _ =>
    if desc.write_only then ([], .error .UnexpectedWriteOnlyDescriptor)
    else if desc.len % 4 ≠ 0 then ([], .error .InvalidRequest)
    else
      let body := pfnLoop vq queue_index pageSize mem desc.addr (desc.len / 4)
      match body.2 with
      | .error e => (body.1, .error e)
      | .ok _ => (body.1, .ok ⟨c.head_index, desc.len⟩)

/-- The outer while loop of process_queue: pop chains until the queue
is empty or a chain fails; a failing chain has already been popped,
and chains after it stay available. -/
def drainPQ (vq : BalloonVq) (queue_index pageSize : Nat) (mem : GuestMem) :
    List DescChain → DrainResult
  | [] => ⟨[], [], [], .ok ()⟩
  | c :: rest =>
    let step := processChainPQ vq queue_index pageSize mem c
    match step.2 with
    | .error e => ⟨rest, [], step.1, .error e⟩
    | .ok u =>
      let dr := drainPQ vq queue_index pageSize mem rest
      ⟨dr.remaining, u :: dr.usedAdded, step.1 ++ dr.ops, dr.result⟩

/-- BalloonEpollHandler::process_queue (inflate, deflate,
hetero-inflate, hetero-deflate).  Used entries are appended as chains
are processed; a single queue interrupt is signalled after the drain
iff at least one chain was marked used and no error occurred. -/
def process_queue (h : HandlerState) (vq : BalloonVq) :
    HandlerState × Except Error Unit :=
  let queue_index := h.queueIndices vq
  let q := h.queues queue_index
  let dr := drainPQ vq queue_index h.pageSize h.mem q.avail
  let h2 : HandlerState :=
    { h with
      queues := fun i =>
        if i = queue_index then ⟨dr.remaining, q.used ++ dr.usedAdded⟩
        else h.queues i
      memOps := h.memOps ++ dr.ops }
  match dr.result with
  | .error e => (h2, .error e)
  | .ok _ =>
    if dr.usedAdded.isEmpty then (h2, .ok ())
    else ({ h2 with interrupts := h2.interrupts ++ [queue_index] }, .ok ())

/-- BalloonEpollHandler::process_stats_timer: signal the queue
interrupt for the latched stats queue index, or fail with
MemoryStatistic when no index was latched yet. -/
def process_stats_timer (h : HandlerState) : HandlerState × Except Error Unit :=
  match h.statsQueueIndex with
  | none => (h, .error .MemoryStatistic)
  | some queue_index =>
    ({ h with interrupts := h.interrupts ++ [queue_index] }, .ok ())

/-- Outcome of draining the stats queue: left-over chains, used
entries added, the counter bank after all stores that happened, and
the overall result. -/
structure StatsDrainResult where
  remaining : List DescChain
  usedAdded : List UsedEntry
  counters : BalloonCounters
  result : Except Error Unit

/-- The inner while loop of process_stats_queue: read count 10-byte
BalloonStat records starting at addr and store each value into the
cell its tag selects.  Stores made before an error persist. -/
def statLoop (mem : GuestMem) :
    Nat → Nat → BalloonCounters → BalloonCounters × Except Error Unit
  | _, 0, ctrs => (ctrs, .ok ())
  | addr, n + 1, ctrs =>
    match mem.readStat addr with
    | none => (ctrs, .error .GuestMemory)
    | some tv =>
      let tag := tv.1 % 2 ^ 16
      let val := tv.2 % 2 ^ 64
      match ctrs.store tag val with
      | .error e => (ctrs, .error e)
      | .ok ctrs2 => statLoop mem (addr + 10) n ctrs2

/-- The body of process_stats_queue for one popped chain: head
descriptor required and must be readable, its length a multiple of
size_of::<BalloonStat>() = 10; then the record loop runs; on success
the used entry is (head_index, head length). -/
def processStatsChain (mem : GuestMem) (c : DescChain)
    (ctrs : BalloonCounters) : BalloonCounters × Except Error UsedEntry :=
  match c.descs with
  | [] => (ctrs, .error .DescriptorChainTooShort)
  | desc :: _ =>
    if desc.write_only then (ctrs, .error .UnexpectedWriteOnlyDescriptor)
    else if desc.len % 10 ≠ 0 then (ctrs, .error .InvalidRequest)
    else
      let body := statLoop mem desc.addr (desc.len / 10) ctrs
      match body.2 with
      | .error e => (body.1, .error e)
      | .ok _ => (body.1, .ok ⟨c.head_index, desc.len⟩)

/-- The outer while loop of process_stats_queue. -/
def drainStats (mem : GuestMem) :
    List DescChain → BalloonCounters → StatsDrainResult
  | [], ctrs => ⟨[], [], ctrs, .ok ()⟩
  | c :: rest, ctrs =>
    let step := processStatsChain mem c ctrs
    match step.2 with
    | .error e => ⟨rest, [], step.1, .error e⟩
    | .ok u =>
      let dr := drainStats mem rest step.1
      ⟨dr.remaining, u :: dr.usedAdded, dr.counters, dr.result⟩

/-- BalloonEpollHandler::process_stats_queue.  The stats queue index
is latched at entry when still unset.  After a drain that marked at
least one chain used, the refresh timer is reset to the polling
interval (stats_timer_evt or stats_polling_interval missing is
MemoryStatistic); no queue interrupt is ever raised here. -/
def process_stats_queue (h : HandlerState) (vq : BalloonVq) :
    HandlerState × Except Error Unit :=
  let queue_index := h.queueIndices vq
  let h0 : HandlerState :=
    match h.statsQueueIndex with
    | none => { h with statsQueueIndex := some queue_index }
    | some _ => h
  let q := h0.queues queue_index
  let dr := drainStats h0.mem q.avail h0.counters
  let h2 : HandlerState :=
    { h0 with
      queues := fun i =>
        if i = queue_index then ⟨dr.remaining, q.used ++ dr.usedAdded⟩
        else h0.queues i
      counters := dr.counters }
  match dr.result with
  | .error e => (h2, .error e)
  | .ok _ =>
    if dr.usedAdded.isEmpty then (h2, .ok ())
    else
      if h2.statsTimerPresent then
        match h2.statsPollingInterval with
        | none => (h2, .error .MemoryStatistic)
        | some d => ({ h2 with timerArmed := some d }, .ok ())
      else (h2, .error .MemoryStatistic)

/-- The inner while loop of process_reporting_queue: for every
descriptor yielded by the chain (head included), accumulate its
length and release its whole range.  No write-only or size validation
is performed. -/
def reportLoop (mem : GuestMem) :
    List Descriptor → List MemOp × Except Error Nat
  | [] => ([], .ok 0)
  | d :: rest =>
    match release_memory_range mem d.addr d.len with
    | .error e => ([], .error e)
    | .ok ops =>
      let body := reportLoop mem rest
      match body.2 with
      | .error e => (ops ++ body.1, .error e)
      | .ok n => (ops ++ body.1, .ok (d.len + n))

/-- The body of process_reporting_queue for one popped chain: on
success the used entry carries the u32 sum of all descriptor
lengths. -/
def processReportChain (mem : GuestMem) (c : DescChain) :
    List MemOp × Except Error UsedEntry :=
  let body := reportLoop mem c.descs
  match body.2 with
  | .error e => (body.1, .error e)
  | .ok n => (body.1, .ok ⟨c.head_index, n % 2 ^ 32⟩)

/-- The outer while loop of process_reporting_queue. -/
def drainReporting (mem : GuestMem) : List DescChain → DrainResult
  | [] => ⟨[], [], [], .ok ()⟩
  | c :: rest =>
    let step := processReportChain mem c
    match step.2 with
    | .error e => ⟨rest, [], step.1, .error e⟩
    | .ok u =>
      let dr := drainReporting mem rest
      ⟨dr.remaining, u :: dr.usedAdded, step.1 ++ dr.ops, dr.result⟩

/-- BalloonEpollHandler::process_reporting_queue. -/
def process_reporting_queue (h : HandlerState) (vq : BalloonVq) :
    HandlerState × Except Error Unit :=
  let queue_index := h.queueIndices vq
  let q := h.queues queue_index
  let dr := drainReporting h.mem q.avail
  let h2 : HandlerState :=
    { h with
      queues := fun i =>
        if i = queue_index then ⟨dr.remaining, q.used ++ dr.usedAdded⟩
        else h.queues i
      memOps := h.memOps ++ dr.ops }
  match dr.result with
  | .error e => (h2, .error e)
  | .ok _ =>
    if dr.usedAdded.isEmpty then (h2, .ok ())
    else ({ h2 with interrupts := h2.interrupts ++ [queue_index] }, .ok ())

/-- const CONFIG_ACTUAL_OFFSET: u64 = 4 -/
def CONFIG_ACTUAL_OFFSET : Nat := 4

/-- const CONFIG_HETERO_ACTUAL_OFFSET: u64 = 20 -/
def CONFIG_HETERO_ACTUAL_OFFSET : Nat := 20

/-- const CONFIG_ACTUAL_SIZE: usize = 4 -/
def CONFIG_ACTUAL_SIZE : Nat := 4

/-- struct VirtioBalloonConfig: six u32 fields, 24 bytes in total. -/
structure VirtioBalloonConfig where
  num_pages : Nat
  actual : Nat
  hint_cmd_id : Nat
  poison_val : Nat
  num_hetero_pages : Nat
  hetero_actual : Nat
deriving DecidableEq, Repr

/-- Balloon::write_config acting on the 24-byte window
self.config.as_mut_slice(), modelled as a byte list of the window
length.  The first guard rejects everything except offset 4 or 20
with a 4-byte buffer; the second guard rejects writes past the end of
the record; an accepted write splices data in at offset (write_all on
the tail slice starting at offset). -/
def writeConfigBytes (config : List Nat) (offset : Nat) (data : List Nat) :
    List Nat :=
  if (offset ≠ CONFIG_ACTUAL_OFFSET ∧ offset ≠ CONFIG_HETERO_ACTUAL_OFFSET) ∨
      data.length ≠ CONFIG_ACTUAL_SIZE then
    config
  else if offset + data.length > config.length then
    config
  else
    config.take offset ++ data ++ config.drop (offset + data.length)

/-- struct BalloonState: the persisted snapshot payload. -/
structure BalloonState where
  avail_features : Nat
  acked_features : Nat
  config : VirtioBalloonConfig
deriving DecidableEq, Repr

/-- The fields of struct Balloon (and of the embedded VirtioCommon)
that the modelled operations read or write. -/
structure Balloon where
  avail_features : Nat
  acked_features : Nat
  config : VirtioBalloonConfig
  paused : Bool
  queue_sizes : List Nat
  counters : BalloonCounters
deriving DecidableEq, Repr

/-- Balloon::new.  With a restore state the features and config are
taken verbatim and the device starts paused; otherwise features are
assembled from the option flags, acked_features is 0, and num_pages /
num_hetero_pages come from size >> 12 truncated to u32.  Queue sizes
are always computed from the option flags. -/
def Balloon.new (size0 size1 : Nat) (stats_polling_interval : Option Nat)
    (deflate_on_oom free_page_reporting heterogeneous_memory : Bool)
    (state : Option BalloonState) : Balloon :=
  let queue_sizes : List Nat :=
    [QUEUE_SIZE, QUEUE_SIZE] ++
      (if stats_polling_interval.isSome then [STATS_QUEUE_SIZE] else []) ++
      (if free_page_reporting then [REPORTING_QUEUE_SIZE] else []) ++
      (if heterogeneous_memory then [QUEUE_SIZE, QUEUE_SIZE] else [])
  match state with
  | some st =>
    { avail_features := st.avail_features
      acked_features := st.acked_features
      config := st.config
      paused := true
      queue_sizes := queue_sizes
      counters := BalloonCounters.zero }
  | none =>
    let af0 := 2 ^ VIRTIO_F_VERSION_1
    let af1 := if stats_polling_interval.isSome then
        af0 ||| 2 ^ VIRTIO_BALLOON_F_STATS_VQ else af0
    let af2 := if deflate_on_oom then
        af1 ||| 2 ^ VIRTIO_BALLOON_F_DEFLATE_ON_OOM else af1
    let af3 := if free_page_reporting then
        af2 ||| 2 ^ VIRTIO_BALLOON_F_REPORTING else af2
    let af4 := if heterogeneous_memory then
        af3 ||| 2 ^ VIRTIO_BALLOON_F_HETERO_MEM else af3
    { avail_features := af4
      acked_features := 0
      config :=
        { num_pages := size0 / 2 ^ VIRTIO_BALLOON_PFN_SHIFT % 2 ^ 32
          actual := 0
          hint_cmd_id := 0
          poison_val := 0
          num_hetero_pages := size1 / 2 ^ VIRTIO_BALLOON_PFN_SHIFT % 2 ^ 32
          hetero_actual := 0 }
      paused := false
      queue_sizes := queue_sizes
      counters := BalloonCounters.zero }

/-- Balloon::state, the payload snapshot() serializes. -/
def Balloon.state (b : Balloon) : BalloonState :=
  { avail_features := b.avail_features
    acked_features := b.acked_features
    config := b.config }

/-- Balloon::get_actual: (config.actual as u64) << PFN_SHIFT. -/
def Balloon.get_actual (b : Balloon) : Nat :=
  b.config.actual * 2 ^ VIRTIO_BALLOON_PFN_SHIFT

/-- Balloon::get_hetero_actual. -/
def Balloon.get_hetero_actual (b : Balloon) : Nat :=
  b.config.hetero_actual * 2 ^ VIRTIO_BALLOON_PFN_SHIFT

/-- The (name, value) pairs of counters() for the given tag list;
None models a panic of one of the two unwrap calls. -/
def collectCounters (c : BalloonCounters) :
    List Nat → Option (List (String × Nat))
  | [] => some []
  | t :: rest =>
    match BalloonCounters.name t, c.get t with
    | .ok n, .ok v =>
      match collectCounters c rest with
      | some l => some ((n, v) :: l)
      | none => none
    | _, _ => none

/-- VirtioDevice::counters for Balloon: the sixteen tagged statistics
by name, then the two derived entries.  The source collects into a
HashMap and inserts the two extra keys; since no statistic is named
actual or hetero_actual the map holds exactly these 18 entries, here
kept in tag order with the derived entries appended. -/
def Balloon.countersSurface (b : Balloon) : Option (List (String × Nat)) :=
  match collectCounters b.counters (List.range 16) with
  | none => none
  | some l =>
    some (l ++ [("actual", b.get_actual), ("hetero_actual", b.get_hetero_actual)])

/-! Helper lemmas. -/

theorem processChainPQ_ok (vq : BalloonVq) (qi ps : Nat) (mem : GuestMem)
    (hi : Nat) (ds : List Descriptor) (u : UsedEntry)
    (h : (processChainPQ vq qi ps mem ⟨hi, ds⟩).2 = .ok u) :
    u = ⟨hi, DescChain.headLen ⟨hi, ds⟩⟩ := by
  cases ds with
  | nil => simp [processChainPQ] at h
  | cons d rest =>
    simp only [processChainPQ] at h
    by_cases hw : d.write_only = true
    · simp [hw] at h
    · simp only [hw, if_false] at h
      by_cases hl : d.len % 4 = 0
      · simp only [hl, ne_eq, not_true_eq_false, if_false, if_neg] at h
        cases hb : (pfnLoop vq qi ps mem d.addr (d.len / 4)).2 with
        | error e => rw [hb] at h; simp at h
        | ok _ =>
          rw [hb] at h
          simp at h
          simp [DescChain.headLen, h]
      · simp [hl, hw] at h

theorem drainPQ_ok_used (vq : BalloonVq) (qi ps : Nat) (mem : GuestMem)
    (chains : List DescChain)
    (h : (drainPQ vq qi ps mem chains).result = .ok ()) :
    (drainPQ vq qi ps mem chains).usedAdded =
      chains.map (fun c => ⟨c.head_index, c.headLen⟩) := by
  induction chains with
  | nil => simp [drainPQ]
  | cons c rest ih =>
    cases hs : (processChainPQ vq qi ps mem c).2 with
    | error e => simp only [drainPQ, hs] at h; simp at h
    | ok u =>
      simp only [drainPQ, hs] at h ⊢
      simp only [List.map_cons, List.cons.injEq]
      refine ⟨?_, ih h⟩
      obtain ⟨hi, ds⟩ := c
      exact processChainPQ_ok vq qi ps mem hi ds u hs

/-! Concrete states for witnesses and counterexamples. -/

/-- One anonymous 1 MiB region starting at 0; every u32 read yields
pfn 0 and every stats read yields the record (tag 0, value 42). -/
def memAnon : GuestMem :=
  { regions := [⟨0, 2 ^ 20, none⟩]
    readU32 := fun _ => some 0
    readStat := fun _ => some (0, 42) }

/-- A handler state over the given memory whose every queue index
holds the given available chains, with the stats machinery configured
(timer present, 1000 time-unit polling interval) and empty traces. -/
def mkHandler (mem : GuestMem) (chains : List DescChain) : HandlerState :=
  { mem := mem
    pageSize := 4096
    queues := fun _ => ⟨chains, []⟩
    queueIndices := fun _ => 0
    statsQueueIndex := none
    statsTimerPresent := true
    statsPollingInterval := some 1000
    timerArmed := none
    counters := BalloonCounters.zero
    interrupts := []
    memOps := [] }

/-- Claim C1, counterexample: a two-descriptor inflate chain (head
length 4, a second readable descriptor of length 4) is processed
successfully, yet the single used entry reports length 4, the head
descriptor length, while the total readable byte-length of the chain
is 8.  So the reported length is not the total readable length of the
whole chain. -/
theorem C1_cex :
    (process_queue (mkHandler memAnon [⟨0, [⟨0, 4, false⟩, ⟨100, 4, false⟩]⟩])
        .Inflate).2 = .ok () ∧
    ((process_queue (mkHandler memAnon [⟨0, [⟨0, 4, false⟩, ⟨100, 4, false⟩]⟩])
        .Inflate).1.queueAt 0).used = [⟨0, 4⟩] ∧
    DescChain.totalReadableLen ⟨0, [⟨0, 4, false⟩, ⟨100, 4, false⟩]⟩ = 8 ∧
    (4 : Nat) ≠ 8 := by
  refine ⟨rfl, rfl, rfl, by decide⟩

/-- Claim C1 (amended): for every descriptor chain successfully
processed by process_queue, exactly one used-ring entry is added, and
its reported length equals the length of the head descriptor of the
chain (which is also the only readable part the handler consumes). -/
theorem C1_theorem (h : HandlerState) (vq : BalloonVq)
    (hok : (process_queue h vq).2 = .ok ()) :
    ((process_queue h vq).1.queueAt (h.queueIndices vq)).used =
      (h.queueAt (h.queueIndices vq)).used ++
        ((h.queueAt (h.queueIndices vq)).avail.map
          (fun c => ⟨c.head_index, c.headLen⟩)) := by
  simp only [process_queue, HandlerState.queueAt] at hok ⊢
  cases hr : (drainPQ vq (h.queueIndices vq) h.pageSize h.mem
      (h.queues (h.queueIndices vq)).avail).result with
  | error e => simp [hr] at hok
  | ok u =>
    cases u
    have hu := drainPQ_ok_used vq (h.queueIndices vq) h.pageSize h.mem
      (h.queues (h.queueIndices vq)).avail hr
    simp only [hr]
    split <;> simp [hu]

/-- Claim C1, witness: a successful single-chain inflate drain posts
exactly one used entry with the head descriptor length 8. -/
theorem C1_witness :
    ((process_queue (mkHandler memAnon [⟨7, [⟨0, 8, false⟩]⟩]) .Inflate).1.queueAt
        0).used = [⟨7, 8⟩] := by
  have h := C1_theorem (mkHandler memAnon [⟨7, [⟨0, 8, false⟩]⟩]) .Inflate rfl
  simpa [mkHandler, HandlerState.queueAt, DescChain.headLen] using h

theorem release_memory_range_error (mem : GuestMem) (base len : Nat) (e : Error)
    (h : release_memory_range mem base len = .error e) : e = .GuestMemory := by
  unfold release_memory_range at h
  cases hf : findRegion mem base with
  | none =>
    simp only [hf] at h
    simp at h
    exact h.symm
  | some r => simp [hf, advise_memory_range] at h

theorem reportLoop_error (mem : GuestMem) (ds : List Descriptor) (e : Error)
    (h : (reportLoop mem ds).2 = .error e) : e = .GuestMemory := by
  induction ds generalizing e with
  | nil => simp [reportLoop] at h
  | cons d rest ih =>
    cases hr : release_memory_range mem d.addr d.len with
    | error e2 =>
      simp only [reportLoop, hr] at h
      simp at h
      exact h ▸ release_memory_range_error mem d.addr d.len e2 hr
    | ok ops =>
      simp only [reportLoop, hr] at h
      cases hb : (reportLoop mem rest).2 with
      | error e3 =>
        simp only [hb] at h
        simp at h
        exact h ▸ ih e3 hb
      | ok n => simp [hb] at h

theorem processReportChain_error (mem : GuestMem) (c : DescChain) (e : Error)
    (h : (processReportChain mem c).2 = .error e) : e = .GuestMemory := by
  unfold processReportChain at h
  cases hb : (reportLoop mem c.descs).2 with
  | error e2 =>
    simp only [hb] at h
    simp at h
    exact h ▸ reportLoop_error mem c.descs e2 hb
  | ok n => simp [hb] at h

theorem drainReporting_error (mem : GuestMem) (chains : List DescChain)
    (e : Error) (h : (drainReporting mem chains).result = .error e) :
    e = .GuestMemory := by
  induction chains generalizing e with
  | nil => simp [drainReporting] at h
  | cons c rest ih =>
    cases hs : (processReportChain mem c).2 with
    | error e2 =>
      simp only [drainReporting, hs] at h
      simp at h
      exact h ▸ processReportChain_error mem c e2 hs
    | ok u =>
      simp only [drainReporting, hs] at h
      exact ih e h

theorem process_reporting_only_gm (h : HandlerState) (vq : BalloonVq)
    (e : Error) (he : (process_reporting_queue h vq).2 = .error e) :
    e = .GuestMemory := by
  simp only [process_reporting_queue] at he
  cases hr : (drainReporting h.mem (h.queues (h.queueIndices vq)).avail).result with
  | error e2 =>
    simp only [hr] at he
    simp at he
    exact he ▸ drainReporting_error h.mem _ e2 hr
  | ok u =>
    simp only [hr] at he
    split at he <;> simp at he

/-- Claim C2, counterexample: a reporting chain whose head descriptor
is write-only is not rejected: process_reporting_queue returns Ok,
and it has already released the write-only descriptor's range (one
DONTNEED advice over [0, 4096) is emitted).  So the reporting-queue
handler does not perform the write-only-head validation. -/
theorem C2_cex :
    (process_reporting_queue (mkHandler memAnon [⟨0, [⟨0, 4096, true⟩]⟩])
        .Reporting).2 = .ok () ∧
    (process_reporting_queue (mkHandler memAnon [⟨0, [⟨0, 4096, true⟩]⟩])
        .Reporting).1.memOps = [.madvise 0 4096 .DONTNEED] ∧
    Descriptor.write_only ⟨0, 4096, true⟩ = true := by
  refine ⟨rfl, rfl, rfl⟩

/-- Claim C2 (amended): on the queues served by process_queue
(inflate, deflate, hetero-inflate, hetero-deflate) and on the stats
queue, a descriptor chain whose head descriptor is write-only is
rejected with UnexpectedWriteOnlyDescriptor; the reporting-queue
handler performs no such validation: it can never return
UnexpectedWriteOnlyDescriptor. -/
theorem C2_theorem (h : HandlerState) (vq : BalloonVq) (hi : Nat)
    (d : Descriptor) (ds : List Descriptor) (rest : List DescChain)
    (hq : (h.queues (h.queueIndices vq)).avail = ⟨hi, d :: ds⟩ :: rest)
    (hw : d.write_only = true) :
    (process_queue h vq).2 = .error .UnexpectedWriteOnlyDescriptor ∧
    (process_stats_queue h vq).2 = .error .UnexpectedWriteOnlyDescriptor ∧
    ∀ (h2 : HandlerState) (vq2 : BalloonVq),
      (process_reporting_queue h2 vq2).2 ≠
        .error .UnexpectedWriteOnlyDescriptor := by
  refine ⟨?_, ?_, ?_⟩
  · simp [process_queue, hq, drainPQ, processChainPQ, hw]
  · cases hsi : h.statsQueueIndex with
    | none => simp [process_stats_queue, hsi, hq, drainStats, processStatsChain, hw]
    | some qi => simp [process_stats_queue, hsi, hq, drainStats, processStatsChain, hw]
  · intro h2 vq2 he
    exact absurd (process_reporting_only_gm h2 vq2 _ he) (by simp)

/-- Claim C2, witness: a concrete write-only-headed chain at the
front of the inflate queue is rejected with
UnexpectedWriteOnlyDescriptor. -/
theorem C2_witness :
    (process_queue (mkHandler memAnon [⟨3, [⟨0, 6, true⟩]⟩]) .Inflate).2 =
      .error .UnexpectedWriteOnlyDescriptor :=
  (C2_theorem (mkHandler memAnon [⟨3, [⟨0, 6, true⟩]⟩]) .Inflate 3
    ⟨0, 6, true⟩ [] [] rfl rfl).1

/-- Claim C3: write_config splices the buffer into the 24-byte
configuration record exactly when (offset, length) is (4, 4) or
(20, 4); every other write leaves the record completely unchanged. -/
theorem C3_theorem (config : List Nat) (h24 : config.length = 24)
    (offset : Nat) (data : List Nat) :
    writeConfigBytes config offset data =
      if (offset = 4 ∨ offset = 20) ∧ data.length = 4 then
        config.take offset ++ data ++ config.drop (offset + 4)
      else config := by
  unfold writeConfigBytes CONFIG_ACTUAL_OFFSET CONFIG_HETERO_ACTUAL_OFFSET
    CONFIG_ACTUAL_SIZE
  by_cases hacc : (offset = 4 ∨ offset = 20) ∧ data.length = 4
  · obtain ⟨ho, hl⟩ := hacc
    have hg1 : ¬((offset ≠ 4 ∧ offset ≠ 20) ∨ data.length ≠ 4) := by
      tauto
    rw [if_neg hg1]
    have hg2 : ¬(offset + data.length > config.length) := by
      rw [h24, hl]
      rcases ho with ho | ho <;> omega
    rw [if_neg hg2, if_pos ⟨ho, hl⟩, hl]
  · have hg1 : (offset ≠ 4 ∧ offset ≠ 20) ∨ data.length ≠ 4 := by tauto
    rw [if_pos hg1, if_neg hacc]

/-- Claim C3, witness: on the all-zero 24-byte record, a write at
offset 4 of 4 bytes is spliced in, and a 4-byte write at offset 0 is
dropped. -/
theorem C3_witness :
    writeConfigBytes (List.replicate 24 0) 4 [9, 9, 9, 9] =
      List.take 4 (List.replicate 24 0) ++ [9, 9, 9, 9] ++
        List.drop 8 (List.replicate 24 0) ∧
    writeConfigBytes (List.replicate 24 0) 0 [9, 9, 9, 9] =
      List.replicate 24 0 := by
  constructor
  · have h := C3_theorem (List.replicate 24 0) (by simp) 4 [9, 9, 9, 9]
    simpa using h
  · have h := C3_theorem (List.replicate 24 0) (by simp) 0 [9, 9, 9, 9]
    simpa using h

/-- Claim C4, counterexample: an inflate chain whose head descriptor
has length 6 (not a multiple of 4) but is also write-only fails with
UnexpectedWriteOnlyDescriptor, not with InvalidRequest: the
write-only validation runs first. -/
theorem C4_cex :
    (process_queue (mkHandler memAnon [⟨0, [⟨0, 6, true⟩]⟩]) .Inflate).2 =
      .error .UnexpectedWriteOnlyDescriptor ∧
    (6 : Nat) % 4 ≠ 0 ∧
    (process_queue (mkHandler memAnon [⟨0, [⟨0, 6, true⟩]⟩]) .Inflate).2 ≠
      .error .InvalidRequest := by
  refine ⟨rfl, by decide, ?_⟩
  intro hx
  rw [show (process_queue (mkHandler memAnon [⟨0, [⟨0, 6, true⟩]⟩]) .Inflate).2
      = .error .UnexpectedWriteOnlyDescriptor from rfl] at hx
  simp at hx

/-- Claim C4 (amended): for a chain whose head descriptor is
host-readable, a head length that is not a multiple of 4 fails
process_queue with InvalidRequest before any memory-advice operation
is emitted, and a head length that is not a multiple of 10 fails
process_stats_queue with InvalidRequest before any counter store. -/
theorem C4_theorem (h : HandlerState) (vq : BalloonVq) (hi : Nat)
    (d : Descriptor) (ds : List Descriptor) (rest : List DescChain)
    (hq : (h.queues (h.queueIndices vq)).avail = ⟨hi, d :: ds⟩ :: rest)
    (hw : d.write_only = false) :
    (d.len % 4 ≠ 0 →
      (process_queue h vq).2 = .error .InvalidRequest ∧
      (process_queue h vq).1.memOps = h.memOps) ∧
    (d.len % 10 ≠ 0 →
      (process_stats_queue h vq).2 = .error .InvalidRequest ∧
      (process_stats_queue h vq).1.counters = h.counters) := by
  constructor
  · intro hl
    constructor <;>
      simp [process_queue, hq, drainPQ, processChainPQ, hw, hl]
  · intro hl
    cases hsi : h.statsQueueIndex with
    | none =>
      constructor <;>
        simp [process_stats_queue, hsi, hq, drainStats, processStatsChain, hw, hl]
    | some qi =>
      constructor <;>
        simp [process_stats_queue, hsi, hq, drainStats, processStatsChain, hw, hl]

/-- Claim C4, witness: a readable head of length 6 is rejected with
InvalidRequest on both the inflate and the stats queue. -/
theorem C4_witness :
    (process_queue (mkHandler memAnon [⟨2, [⟨0, 6, false⟩]⟩]) .Inflate).2 =
      .error .InvalidRequest ∧
    (process_stats_queue (mkHandler memAnon [⟨2, [⟨0, 6, false⟩]⟩]) .Stats).2 =
      .error .InvalidRequest := by
  have h1 := (C4_theorem (mkHandler memAnon [⟨2, [⟨0, 6, false⟩]⟩]) .Inflate 2
    ⟨0, 6, false⟩ [] [] rfl rfl).1 (by decide)
  have h2 := (C4_theorem (mkHandler memAnon [⟨2, [⟨0, 6, false⟩]⟩]) .Stats 2
    ⟨0, 6, false⟩ [] [] rfl rfl).2 (by decide)
  exact ⟨h1.1, h2.1⟩

theorem drainStats_ok_len (mem : GuestMem) (chains : List DescChain)
    (ctrs : BalloonCounters)
    (h : (drainStats mem chains ctrs).result = .ok ()) :
    (drainStats mem chains ctrs).usedAdded.length = chains.length := by
  induction chains generalizing ctrs with
  | nil => simp [drainStats]
  | cons c rest ih =>
    cases hs : (processStatsChain mem c ctrs).2 with
    | error e => simp [drainStats, hs] at h
    | ok u =>
      simp only [drainStats, hs] at h ⊢
      simp [ih _ h]

theorem stats_interrupts_invariant (h : HandlerState) (vq : BalloonVq) :
    (process_stats_queue h vq).1.interrupts = h.interrupts := by
  simp only [process_stats_queue]
  repeat' split
  all_goals rfl

/-- Claim C5, counterexample: a stats dispatch that consumes one
chain (a used entry is posted and its record is stored) and then hits
a bad second chain returns the error without re-arming the refresh
timer, although the timer machinery is fully configured.  So a
dispatch consuming at least one chain does not always arm the
timer. -/
theorem C5_cex :
    ((process_stats_queue (mkHandler memAnon
        [⟨0, [⟨0, 10, false⟩]⟩, ⟨1, [⟨0, 10, true⟩]⟩]) .Stats).1.queueAt 0).used =
      [⟨0, 10⟩] ∧
    (process_stats_queue (mkHandler memAnon
        [⟨0, [⟨0, 10, false⟩]⟩, ⟨1, [⟨0, 10, true⟩]⟩]) .Stats).1.counters.swap_in
      = 42 ∧
    (process_stats_queue (mkHandler memAnon
        [⟨0, [⟨0, 10, false⟩]⟩, ⟨1, [⟨0, 10, true⟩]⟩]) .Stats).1.timerArmed =
      none ∧
    (mkHandler memAnon [⟨0, [⟨0, 10, false⟩]⟩, ⟨1, [⟨0, 10, true⟩]⟩]).statsTimerPresent
      = true ∧
    (mkHandler memAnon [⟨0, [⟨0, 10, false⟩]⟩, ⟨1, [⟨0, 10, true⟩]⟩]).statsPollingInterval
      = some 1000 ∧
    (process_stats_queue (mkHandler memAnon
        [⟨0, [⟨0, 10, false⟩]⟩, ⟨1, [⟨0, 10, true⟩]⟩]) .Stats).2 =
      .error .UnexpectedWriteOnlyDescriptor := by
  exact ⟨rfl, rfl, rfl, rfl, rfl, rfl⟩

/-- Claim C5 (amended): the stats-queue handler never raises a queue
interrupt, and for every dispatch that returns successfully: if the
queue held at least one chain the refresh timer is re-armed with the
configured polling interval, and if it held none the timer is left
as it was. -/
theorem C5_theorem (h : HandlerState) (vq : BalloonVq) :
    (process_stats_queue h vq).1.interrupts = h.interrupts ∧
    ((process_stats_queue h vq).2 = .ok () →
      ((h.queues (h.queueIndices vq)).avail ≠ [] →
        (process_stats_queue h vq).1.timerArmed = h.statsPollingInterval) ∧
      ((h.queues (h.queueIndices vq)).avail = [] →
        (process_stats_queue h vq).1.timerArmed = h.timerArmed)) := by
  refine ⟨stats_interrupts_invariant h vq, ?_⟩
  intro hok
  cases hsi : h.statsQueueIndex with
  | none =>
    simp only [process_stats_queue, hsi] at hok ⊢
    cases hdr : (drainStats h.mem (h.queues (h.queueIndices vq)).avail
        h.counters).result with
    | error e => simp [hdr] at hok
    | ok u =>
      cases u
      have hlen := drainStats_ok_len h.mem (h.queues (h.queueIndices vq)).avail
        h.counters hdr
      simp only [hdr] at hok ⊢
      by_cases hemp : (drainStats h.mem (h.queues (h.queueIndices vq)).avail
          h.counters).usedAdded.isEmpty
      · constructor
        · intro hne
          rw [List.isEmpty_iff, ← List.length_eq_zero] at hemp
          rw [hlen, List.length_eq_zero] at hemp
          exact absurd hemp hne
        · intro _
          simp [hemp]
      · constructor
        · intro _
          simp only [hemp, if_false] at hok ⊢
          by_cases htp : h.statsTimerPresent
          · simp only [htp, if_true] at hok ⊢
            cases hin : h.statsPollingInterval with
            | none => simp [hin] at hok
            | some dur => simp [hin]
          · simp [htp] at hok
        · intro hnil
          rw [List.isEmpty_iff] at hemp
          rw [← List.length_eq_zero, hlen, List.length_eq_zero] at hemp
          exact absurd hnil hemp
  | some qi =>
    simp only [process_stats_queue, hsi] at hok ⊢
    cases hdr : (drainStats h.mem (h.queues (h.queueIndices vq)).avail
        h.counters).result with
    | error e => simp [hdr] at hok
    | ok u =>
      cases u
      have hlen := drainStats_ok_len h.mem (h.queues (h.queueIndices vq)).avail
        h.counters hdr
      simp only [hdr] at hok ⊢
      by_cases hemp : (drainStats h.mem (h.queues (h.queueIndices vq)).avail
          h.counters).usedAdded.isEmpty
      · constructor
        · intro hne
          rw [List.isEmpty_iff, ← List.length_eq_zero] at hemp
          rw [hlen, List.length_eq_zero] at hemp
          exact absurd hemp hne
        · intro _
          simp [hemp]
      · constructor
        · intro _
          simp only [hemp, if_false] at hok ⊢
          by_cases htp : h.statsTimerPresent
          · simp only [htp, if_true] at hok ⊢
            cases hin : h.statsPollingInterval with
            | none => simp [hin] at hok
            | some dur => simp [hin]
          · simp [htp] at hok
        · intro hnil
          rw [List.isEmpty_iff] at hemp
          rw [← List.length_eq_zero, hlen, List.length_eq_zero] at hemp
          exact absurd hnil hemp

/-- Claim C5, witness: a successful one-chain stats dispatch arms the
timer with the configured 1000 time-unit interval and raises no
interrupt. -/
theorem C5_witness :
    (process_stats_queue (mkHandler memAnon [⟨0, [⟨0, 10, false⟩]⟩])
        .Stats).1.timerArmed = some 1000 ∧
    (process_stats_queue (mkHandler memAnon [⟨0, [⟨0, 10, false⟩]⟩])
        .Stats).1.interrupts = [] := by
  have h := C5_theorem (mkHandler memAnon [⟨0, [⟨0, 10, false⟩]⟩]) .Stats
  refine ⟨?_, h.1⟩
  have h2 := (h.2 rfl).1 (by simp [mkHandler])
  simpa [mkHandler] using h2

/-- Claim C6, counterexample: a stats-queue dispatch that finds the
queue empty (zero chains processed, no used entry) still latches the
stats queue index: the latch happens at the start of every dispatch,
not upon processing the first chain. -/
theorem C6_cex :
    (mkHandler memAnon []).statsQueueIndex = none ∧
    ((process_stats_queue (mkHandler memAnon []) .Stats).1.queueAt 0).used = [] ∧
    (process_stats_queue (mkHandler memAnon []) .Stats).1.statsQueueIndex =
      some 0 := by
  exact ⟨rfl, rfl, rfl⟩

/-- Claim C6 (amended): the stats-timer handler raises exactly one
queue interrupt on the latched stats queue index, and fails with
MemoryStatistic, raising no interrupt, when no index is latched; the
index is latched at the start of the first stats-queue dispatch, even
one that processes no chain. -/
theorem C6_theorem (h : HandlerState) :
    (h.statsQueueIndex = none →
      (process_stats_timer h).1.interrupts = h.interrupts ∧
      (process_stats_timer h).2 = .error .MemoryStatistic) ∧
    (∀ qi : Nat, h.statsQueueIndex = some qi →
      (process_stats_timer h).1.interrupts = h.interrupts ++ [qi] ∧
      (process_stats_timer h).2 = .ok ()) ∧
    (∀ vq : BalloonVq, (process_stats_queue h vq).1.statsQueueIndex =
      some (h.statsQueueIndex.getD (h.queueIndices vq))) := by
  refine ⟨?_, ?_, ?_⟩
  · intro hn
    constructor <;> simp [process_stats_timer, hn]
  · intro qi hq
    constructor <;> simp [process_stats_timer, hq]
  · intro vq
    cases hsi : h.statsQueueIndex with
    | none =>
      simp only [process_stats_timer, process_stats_queue, hsi, Option.getD]
      repeat' split
      all_goals rfl
    | some qi =>
      simp only [process_stats_timer, process_stats_queue, hsi, Option.getD]
      repeat' split
      all_goals rfl

/-- Claim C6, witness: with a latched index 5 the timer handler
appends exactly one interrupt on index 5; with no latched index it
fails with MemoryStatistic. -/
theorem C6_witness :
    (process_stats_timer
        { mkHandler memAnon [] with statsQueueIndex := some 5 }).1.interrupts =
      [5] ∧
    (process_stats_timer (mkHandler memAnon [])).2 = .error .MemoryStatistic := by
  have h1 := (C6_theorem
    { mkHandler memAnon [] with statsQueueIndex := some 5 }).2.1 5 rfl
  have h2 := (C6_theorem (mkHandler memAnon [])).1 rfl
  exact ⟨by simpa [mkHandler] using h1.1, h2.2⟩

/-- Claim C7: for a 32-bit PFN v read from an inflate or
hetero-inflate chain, the handler releases exactly the page-aligned
range of one host page at align_page_down(pfn shifted left by 12): a
file-backed containing region first gets the hole-punching,
size-keeping fallocate at the backing-file offset
(rbase - region.start + file_offset.start), then the DONTNEED advice
over that range; an anonymous region gets only the DONTNEED advice;
on the deflate and hetero-deflate queues the identical range is
advised WILLNEED with no file operation. -/
theorem C7_theorem (queue_index pageSize : Nat) (mem : GuestMem)
    (addr n v rbase : Nat) (r : MemRegion)
    (hread : mem.readU32 addr = some v)
    (hrb : rbase = alignPageDown pageSize
      (v % 2 ^ 32 * 2 ^ VIRTIO_BALLOON_PFN_SHIFT))
    (hreg : findRegion mem rbase = some r) :
    pfnLoop .Inflate queue_index pageSize mem addr (n + 1) =
      ((match r.fileOffsetStart with
        | some fs => [MemOp.fallocate (rbase - r.start + fs) pageSize]
        | none => []) ++
        [MemOp.madvise rbase pageSize .DONTNEED] ++
        (pfnLoop .Inflate queue_index pageSize mem (addr + 4) n).1,
       (pfnLoop .Inflate queue_index pageSize mem (addr + 4) n).2) ∧
    pfnLoop .HeteroInflate queue_index pageSize mem addr (n + 1) =
      ((match r.fileOffsetStart with
        | some fs => [MemOp.fallocate (rbase - r.start + fs) pageSize]
        | none => []) ++
        [MemOp.madvise rbase pageSize .DONTNEED] ++
        (pfnLoop .HeteroInflate queue_index pageSize mem (addr + 4) n).1,
       (pfnLoop .HeteroInflate queue_index pageSize mem (addr + 4) n).2) ∧
    pfnLoop .Deflate queue_index pageSize mem addr (n + 1) =
      ([MemOp.madvise rbase pageSize .WILLNEED] ++
        (pfnLoop .Deflate queue_index pageSize mem (addr + 4) n).1,
       (pfnLoop .Deflate queue_index pageSize mem (addr + 4) n).2) ∧
    pfnLoop .HeteroDeflate queue_index pageSize mem addr (n + 1) =
      ([MemOp.madvise rbase pageSize .WILLNEED] ++
        (pfnLoop .HeteroDeflate queue_index pageSize mem (addr + 4) n).1,
       (pfnLoop .HeteroDeflate queue_index pageSize mem (addr + 4) n).2) := by
  subst hrb
  refine ⟨?_, ?_, ?_, ?_⟩ <;>
    simp only [pfnLoop, hread, release_memory_range, advise_memory_range, hreg]

/-- Concrete memory with one file-backed region for the C7 witness:
the page at guest address 4096 lives at offset 500 of the backing
file, and every u32 read yields pfn 1. -/
def memFile : GuestMem :=
  { regions := [⟨4096, 2 ^ 20, some 500⟩]
    readU32 := fun _ => some 1
    readStat := fun _ => some (0, 0) }

/-- Claim C7, witness: releasing pfn 1 in the file-backed region
punches a hole at file offset 500 then advises DONTNEED over
[4096, 8192); deflating the same pfn advises WILLNEED only. -/
theorem C7_witness :
    pfnLoop .Inflate 0 4096 memFile 0 1 =
      ([MemOp.fallocate 500 4096, MemOp.madvise 4096 4096 .DONTNEED], .ok ()) ∧
    pfnLoop .Deflate 0 4096 memFile 0 1 =
      ([MemOp.madvise 4096 4096 .WILLNEED], .ok ()) := by
  have h := C7_theorem 0 4096 memFile 0 0 1 4096 ⟨4096, 2 ^ 20, some 500⟩
    rfl rfl rfl
  exact ⟨by simpa using h.1, by simpa using h.2.2.1⟩

/-- Claim C8: constructing a device from the state produced by
Balloon::state (the payload snapshot() serializes) restores
avail_features, acked_features and the configuration record verbatim,
and the restored device starts paused. -/
theorem C8_theorem (b : Balloon) (size0 size1 : Nat) (interval : Option Nat)
    (deflate_on_oom free_page_reporting heterogeneous_memory : Bool) :
    (Balloon.new size0 size1 interval deflate_on_oom free_page_reporting
        heterogeneous_memory (some b.state)).avail_features = b.avail_features ∧
    (Balloon.new size0 size1 interval deflate_on_oom free_page_reporting
        heterogeneous_memory (some b.state)).acked_features = b.acked_features ∧
    (Balloon.new size0 size1 interval deflate_on_oom free_page_reporting
        heterogeneous_memory (some b.state)).config = b.config ∧
    (Balloon.new size0 size1 interval deflate_on_oom free_page_reporting
        heterogeneous_memory (some b.state)).paused = true := by
  exact ⟨rfl, rfl, rfl, rfl⟩

/-- Claim C9: process_queue reads only the head descriptor of a
chain: the outcome for a chain is the same whatever descriptors
follow the head (they are neither validated nor processed), and a
successful chain reports the head descriptor length as the used
length. -/
theorem C9_theorem (vq : BalloonVq) (queue_index pageSize : Nat)
    (mem : GuestMem) (hi : Nat) (d : Descriptor)
    (rest1 rest2 : List Descriptor) :
    processChainPQ vq queue_index pageSize mem ⟨hi, d :: rest1⟩ =
      processChainPQ vq queue_index pageSize mem ⟨hi, d :: rest2⟩ ∧
    (∀ u : UsedEntry,
      (processChainPQ vq queue_index pageSize mem ⟨hi, d :: rest1⟩).2 = .ok u →
      u.len = d.len) := by
  constructor
  · rfl
  · intro u hu
    have he := processChainPQ_ok vq queue_index pageSize mem hi (d :: rest1) u hu
    simp [he, DescChain.headLen]

/-- Claim C9, witness: a two-descriptor inflate chain behaves exactly
as the chain cut down to its head, and the used length is the head
length 4. -/
theorem C9_witness :
    processChainPQ .Inflate 0 4096 memAnon ⟨0, [⟨0, 4, false⟩, ⟨100, 4, false⟩]⟩ =
      processChainPQ .Inflate 0 4096 memAnon ⟨0, [⟨0, 4, false⟩]⟩ ∧
    UsedEntry.len ⟨0, 4⟩ = 4 := by
  have h := C9_theorem .Inflate 0 4096 memAnon 0 ⟨0, 4, false⟩ [⟨100, 4, false⟩] []
  exact ⟨h.1, h.2 ⟨0, 4⟩ rfl⟩

/-- Claim C10: the counters() surface never panics: for every tag
below 16 both BalloonCounters::get and BalloonCounters::name return
Ok, so the unwrap calls always succeed, and the surface holds exactly
the sixteen named statistics plus actual = config.actual shifted left
by 12 and hetero_actual = config.hetero_actual shifted left by 12,
under pairwise distinct keys. -/
theorem C10_theorem (b : Balloon) :
    (∀ t : Fin 16, (b.counters.get t.val).isOk = true ∧
      (BalloonCounters.name t.val).isOk = true) ∧
    Balloon.countersSurface b = some
      [("swap_in", b.counters.swap_in), ("swap_out", b.counters.swap_out),
       ("major_faults", b.counters.major_faults),
       ("minor_faults", b.counters.minor_faults),
       ("free_memory", b.counters.free_memory),
       ("total_memory", b.counters.total_memory),
       ("available_memory", b.counters.available_memory),
       ("disk_caches", b.counters.disk_caches),
       ("hugetlb_allocations", b.counters.hugetlb_allocations),
       ("hugetlb_failures", b.counters.hugetlb_failures),
       ("dram_accesses", b.counters.dram_accesses),
       ("dram_free", b.counters.dram_free),
       ("dram_total", b.counters.dram_total),
       ("pmem_accesses", b.counters.pmem_accesses),
       ("pmem_free", b.counters.pmem_free),
       ("pmem_total", b.counters.pmem_total),
       ("actual", b.config.actual * 2 ^ VIRTIO_BALLOON_PFN_SHIFT),
       ("hetero_actual", b.config.hetero_actual * 2 ^ VIRTIO_BALLOON_PFN_SHIFT)] ∧
    List.Nodup
      ["swap_in", "swap_out", "major_faults", "minor_faults", "free_memory",
       "total_memory", "available_memory", "disk_caches",
       "hugetlb_allocations", "hugetlb_failures", "dram_accesses",
       "dram_free", "dram_total", "pmem_accesses", "pmem_free", "pmem_total",
       "actual", "hetero_actual"] := by
  refine ⟨?_, ?_, ?_⟩
  · intro t
    fin_cases t <;> exact ⟨rfl, rfl⟩
  · rfl
  · decide

end VirtioBalloon
